import Mathlib

/-!
Verification of the battle_jeep arcade shooter (src/src/main.rs).

The source is a Bevy game; its per-frame systems are pure arithmetic over
entity records, embedded here shallowly.  The `f32` coordinates, speeds and
times are modelled as exact rationals (`ℚ`): every claim under study is about
the algebraic structure of the updates, not about rounding.  Engine queries
that the code unwraps (`get_single().unwrap()`) are modelled as `Option`
inputs, with `Except.error ()` standing for the resulting panic (hard stop).
Despawning an entity inside a per-entity update is modelled by returning
`none` for that entity.
-/

/-- 2D vector with rational components (models Bevy `Vec2`). -/
structure Vec2 where
  x : ℚ
  y : ℚ
deriving DecidableEq, Repr

/-- 3D vector (models Bevy `Vec3`: translations and scales). -/
structure Vec3 where
  x : ℚ
  y : ℚ
  z : ℚ
deriving DecidableEq, Repr

/-- `Vec3::truncate`: drop the z component. -/
def Vec3.truncate (v : Vec3) : Vec2 :=
  { x := v.x, y := v.y }

def Vec2.add (a b : Vec2) : Vec2 :=
  { x := a.x + b.x, y := a.y + b.y }

def Vec2.sub (a b : Vec2) : Vec2 :=
  { x := a.x - b.x, y := a.y - b.y }

/-- Scalar division of a vector, as in `scale.truncate() / 2.0`. -/
def Vec2.divScalar (a : Vec2) (s : ℚ) : Vec2 :=
  { x := a.x / s, y := a.y / s }

/-- Rust `f32::clamp(lo, hi)`. -/
def clampQ (v lo hi : ℚ) : ℚ :=
  if v < lo then lo else if v > hi then hi else v

/-- Bevy `Vec2::clamp`: componentwise clamp. -/
def Vec2.clamp (p lo hi : Vec2) : Vec2 :=
  { x := clampQ p.x lo.x hi.x, y := clampQ p.y lo.y hi.y }

/-- Bevy `Aabb2d`: an axis-aligned box given by min/max corners. -/
structure Aabb2d where
  min : Vec2
  max : Vec2
deriving DecidableEq, Repr

/-- Bevy `Aabb2d::new(center, half_size)`. -/
def Aabb2d.new (center halfSize : Vec2) : Aabb2d :=
  { min := Vec2.sub center halfSize, max := Vec2.add center halfSize }

/-- Bevy `BoundingVolume::center` for `Aabb2d`: `(min + max) / 2`. -/
def Aabb2d.center (a : Aabb2d) : Vec2 :=
  Vec2.divScalar (Vec2.add a.min a.max) 2

/-- Bevy `Aabb2d::closest_point`: clamp the point into the box. -/
def Aabb2d.closest_point (a : Aabb2d) (p : Vec2) : Vec2 :=
  Vec2.clamp p a.min a.max

/-- Bevy `IntersectsVolume::intersects` for two `Aabb2d`s:
overlap on both axes, boundaries inclusive. -/
def Aabb2d.intersects (a b : Aabb2d) : Bool :=
  decide (a.min.x ≤ b.max.x) && decide (b.min.x ≤ a.max.x) &&
    decide (a.min.y ≤ b.max.y) && decide (b.min.y ≤ a.max.y)

/-- The `Collision` side enum of main.rs. -/
inductive Collision where
  | Left
  | Right
  | Top
  | Bottom
deriving DecidableEq, Repr

/-- `is_collision` (main.rs lines 274-295): `None` when the boxes do not
intersect; otherwise classify the side from
`offset = colliding.center() - collider.closest_point(colliding.center())`. -/
def is_collision (colliding collider : Aabb2d) : Option Collision :=
  if ¬ (Aabb2d.intersects colliding collider = true) then
    none
  else
    let closest := Aabb2d.closest_point collider (Aabb2d.center colliding)
    let offset := Vec2.sub (Aabb2d.center colliding) closest
    let side :=
      if |offset.x| > |offset.y| then
        if offset.x < 0 then Collision.Left else Collision.Right
      else if offset.y > 0 then Collision.Top
      else Collision.Bottom
    some side

/-- The side classification exactly as §4.5 of the spec words it, applied to
the rocket's and the collider's boxes (spec refinement definition, to be
compared with `is_collision`). -/
def specImpactSide (rocketBox colliderBox : Aabb2d) : Collision :=
  let nearest := Aabb2d.closest_point colliderBox (Aabb2d.center rocketBox)
  let offset := Vec2.sub (Aabb2d.center rocketBox) nearest
  if |offset.x| > |offset.y| then
    if offset.x < 0 then Collision.Left else Collision.Right
  else if offset.y > 0 then Collision.Top
  else Collision.Bottom

/-- Bevy repeating `Timer` (both timers in main.rs use `TimerMode::Repeating`):
duration, accumulated elapsed time, and the finished flag of the last tick. -/
structure Timer where
  duration : ℚ
  elapsed : ℚ
  finished : Bool
deriving DecidableEq, Repr

/-- `Timer::tick(delta)` in repeating mode: accumulate the delta; when the
duration is reached the timer finishes and the elapsed time wraps modulo the
duration (`elapsed % duration`, written for nonnegative rationals via floor). -/
def Timer.tick (t : Timer) (delta : ℚ) : Timer :=
  let e := t.elapsed + delta
  if t.duration ≤ e then
    { t with elapsed := e - t.duration * (Int.floor (e / t.duration) : ℚ), finished := true }
  else
    { t with elapsed := e, finished := false }

/-- The `Player` component plus the fields of its `Transform` that the code
touches (`translation.x`, `translation.y`). -/
structure PlayerEnt where
  x : ℚ
  y : ℚ
  movement_speed : ℚ
deriving DecidableEq, Repr

/-- The `Rocket` component plus its translation. -/
structure RocketEnt where
  x : ℚ
  y : ℚ
  movement_speed : ℚ
deriving DecidableEq, Repr

/-- The `Plane` component plus its translation. -/
structure PlaneEnt where
  x : ℚ
  y : ℚ
  movement_speed : ℚ
  bomb_spawn_timer : Timer
  number_of_bombs : Int
deriving DecidableEq, Repr

/-- The `Bomb` component plus its translation. -/
structure BombEnt where
  x : ℚ
  y : ℚ
  falling_speed : ℚ
deriving DecidableEq, Repr

/-- A `Window`: the code only reads `width()` and `height()`. -/
structure WindowEnt where
  width : ℚ
  height : ℚ
deriving DecidableEq, Repr

/-- `setup_camera` (main.rs lines 75-82): `get_single().unwrap()` on the
primary-window query panics when no window exists (`Except.error ()`);
otherwise the camera is placed at `(width / 2, height / 2, 0)`. -/
def setup_camera (window : Option WindowEnt) : Except Unit Vec3 :=
  match window with
  | none => Except.error ()
  | some w => Except.ok { x := w.width / 2, y := w.height / 2, z := 0 }

/-- `move_player` (main.rs lines 104-119): unwrap the single player (panic
when absent), accumulate `direction` from the left/right key states, then
`translation.x += movement_speed * direction * delta_seconds`. -/
def move_player (player : Option PlayerEnt) (leftPressed rightPressed : Bool)
    (delta : ℚ) : Except Unit PlayerEnt :=
  match player with
  | none => Except.error ()
  | some p =>
    let d0 : ℚ := 0
    let d1 : ℚ := if leftPressed then d0 + -1 else d0
    let direction : ℚ := if rightPressed then d1 + 1 else d1
    Except.ok { p with x := p.x + p.movement_speed * direction * delta }

/-- The direction contract as §4.1/§8 of the spec word it: -1 for left only,
+1 for right only, 0 otherwise (simultaneous presses cancel). -/
def spec_direction (leftPressed rightPressed : Bool) : ℚ :=
  if leftPressed && !rightPressed then -1
  else if rightPressed && !leftPressed then 1
  else 0

/-- `fire_rocket` (main.rs lines 121-141): unwrap the single player (panic
when absent); on a `just_pressed` space edge spawn one rocket at the player's
translation with `movement_speed` 600. -/
def fire_rocket (player : Option Vec3) (spaceJustPressed : Bool) :
    Except Unit (List RocketEnt) :=
  match player with
  | none => Except.error ()
  | some loc =>
    Except.ok (if spaceJustPressed then
        [{ x := loc.x, y := loc.y, movement_speed := 600 }]
      else [])

/-- Loop body of `rocket_update` (main.rs lines 143-157) for one rocket:
while `translation.y < window.height()` the rocket climbs by
`movement_speed * delta_seconds`, otherwise it is despawned (`none`). -/
def rocket_update_step (delta height : ℚ) (r : RocketEnt) : Option RocketEnt :=
  if r.y < height then
    some { r with y := r.y + r.movement_speed * delta }
  else
    none

/-- The plane spawned by `spawn_planes` (main.rs lines 159-182) when the
spawn timer has finished: at `(window.width(), window.height() - 100)`, speed
100, a fresh repeating 2-second bomb timer, `number_of_bombs` 1. -/
def spawn_planes_plane (width height : ℚ) : PlaneEnt :=
  { x := width
    y := height - 100
    movement_speed := 100
    bomb_spawn_timer := { duration := 2, elapsed := 0, finished := false }
    number_of_bombs := 1 }

/-- Loop body of `plane_update` (main.rs lines 184-198) for one plane: while
`translation.y < window.height()` the plane moves left by
`movement_speed * delta_seconds`, otherwise it is despawned (`none`).
Note the bound check reads the vertical coordinate although motion is
horizontal — embedded exactly as written. -/
def plane_update_step (delta height : ℚ) (p : PlaneEnt) : Option PlaneEnt :=
  if p.y < height then
    some { p with x := p.x - p.movement_speed * delta }
  else
    none

/-- Run `plane_update_step` over a sequence of frames with the given deltas,
stopping as despawned (`none`) if any frame takes the despawn branch. -/
def plane_update_run (height : ℚ) (deltas : List ℚ) (p : PlaneEnt) :
    Option PlaneEnt :=
  match deltas with
  | [] => some p
  | d :: ds =>
    match plane_update_step d height p with
    | none => none
    | some p' => plane_update_run height ds p'

/-- `spawn_bombs` (main.rs lines 200-220): for every plane whose bomb timer
has finished, spawn a bomb at that plane's translation with falling speed
100. -/
def spawn_bombs (planes : List PlaneEnt) : List BombEnt :=
  planes.filterMap fun p =>
    if p.bomb_spawn_timer.finished then
      some { x := p.x, y := p.y, falling_speed := 100 }
    else none

/-- Loop body of `update_bombs` (main.rs lines 222-234) for one bomb: while
`translation.y > -16` the bomb falls by `falling_speed * delta_seconds`,
otherwise it is despawned (`none`). -/
def update_bombs_step (delta : ℚ) (b : BombEnt) : Option BombEnt :=
  if b.y > -16 then
    some { b with y := b.y - b.falling_speed * delta }
  else
    none

/-- `plane_spawn_timer_update` (main.rs lines 297-299): tick the global
plane-spawn timer by the frame's delta. -/
def plane_spawn_timer_update (delta : ℚ) (t : Timer) : Timer :=
  t.tick delta

/-- `bomb_spawn_timer_update` (main.rs lines 301-308): tick every plane's
bomb-spawn timer by the frame's delta. -/
def bomb_spawn_timer_update (delta : ℚ) (planes : List PlaneEnt) :
    List PlaneEnt :=
  planes.map fun p =>
    { p with bomb_spawn_timer := p.bomb_spawn_timer.tick delta }

/-- The timer-advancing part of one `Update` frame as registered in `main`
(main.rs lines 56-72): `plane_spawn_timer_update` once,
`bomb_spawn_timer_update` once unconditionally, and `bomb_spawn_timer_update`
a second time under `run_if(run_if_planes)` (planes query nonempty). -/
def frame_timer_updates (delta : ℚ) (spawnTimer : Timer)
    (planes : List PlaneEnt) : Timer × List PlaneEnt :=
  let t := plane_spawn_timer_update delta spawnTimer
  let ps := bomb_spawn_timer_update delta planes
  let ps' := if ps.isEmpty then ps else bomb_spawn_timer_update delta ps
  (t, ps')

/-- The `Transform` fields the collision pass reads: translation and scale. -/
structure Transform' where
  translation : Vec3
  scale : Vec3
deriving DecidableEq, Repr

/-- The AABB the collision pass builds for an entity:
`Aabb2d::new(translation.truncate(), scale.truncate() / 2)`. -/
def aabb_of (t : Transform') : Aabb2d :=
  Aabb2d.new t.translation.truncate (Vec2.divScalar t.scale.truncate 2)

/-- Outcome of one rocket × collider test of the collision pass. -/
structure PairOutcome where
  eventSent : Bool
  rocketDespawned : Bool
  colliderDespawned : Bool
deriving DecidableEq, Repr

/-- Inner loop body of `rocket_collision` (main.rs lines 236-264) for one
rocket-collider pair: when `is_collision` reports a hit, a `CollisionEvent`
is sent, and when additionally the collider carries the `Plane` component
both entities are despawned. -/
def rocket_collision_pair (rocketT colliderT : Transform')
    (colliderIsPlane : Bool) : PairOutcome :=
  match is_collision (aabb_of rocketT) (aabb_of colliderT) with
  | some _ =>
    { eventSent := true
      rocketDespawned := colliderIsPlane
      colliderDespawned := colliderIsPlane }
  | none =>
    { eventSent := false, rocketDespawned := false, colliderDespawned := false }

/-- Helper: `is_collision` reports a hit exactly when the two boxes
intersect. -/
theorem is_collision_isSome_iff (a b : Aabb2d) :
    (is_collision a b).isSome = true ↔ Aabb2d.intersects a b = true := by
  unfold is_collision
  by_cases h : Aabb2d.intersects a b = true
  · simp [h]
  · simp [h]

/-- Helper: the pair outcome when `is_collision` reports no hit. -/
theorem rocket_collision_pair_none {rT cT : Transform'} (isPl : Bool)
    (h : is_collision (aabb_of rT) (aabb_of cT) = none) :
    rocket_collision_pair rT cT isPl =
      { eventSent := false, rocketDespawned := false,
        colliderDespawned := false } := by
  unfold rocket_collision_pair
  rw [h]

/-- Helper: the pair outcome when `is_collision` reports a hit. -/
theorem rocket_collision_pair_some {rT cT : Transform'} {s : Collision}
    (isPl : Bool) (h : is_collision (aabb_of rT) (aabb_of cT) = some s) :
    rocket_collision_pair rT cT isPl =
      { eventSent := true, rocketDespawned := isPl,
        colliderDespawned := isPl } := by
  unfold rocket_collision_pair
  rw [h]

/-- C1, counterexample: a rocket exactly overlapping a collider that is NOT a
plane (the player carries the `Collider` tag too) still gets the collision
event sent, refuting the claim that the notification is broadcast iff the
overlapped collider is specifically a plane. -/
theorem collision_event_without_plane :
    (rocket_collision_pair
        { translation := { x := 0, y := 0, z := 0 }, scale := { x := 2, y := 2, z := 0 } }
        { translation := { x := 0, y := 0, z := 0 }, scale := { x := 2, y := 2, z := 0 } }
        false).eventSent = true ∧
    ¬ ((rocket_collision_pair
        { translation := { x := 0, y := 0, z := 0 }, scale := { x := 2, y := 2, z := 0 } }
        { translation := { x := 0, y := 0, z := 0 }, scale := { x := 2, y := 2, z := 0 } }
        false).eventSent = true ↔
      (Aabb2d.intersects
          (aabb_of { translation := { x := 0, y := 0, z := 0 }, scale := { x := 2, y := 2, z := 0 } })
          (aabb_of { translation := { x := 0, y := 0, z := 0 }, scale := { x := 2, y := 2, z := 0 } }) = true ∧
        false = true)) := by
  have hcol : is_collision
      (aabb_of { translation := { x := 0, y := 0, z := 0 }, scale := { x := 2, y := 2, z := 0 } })
      (aabb_of { translation := { x := 0, y := 0, z := 0 }, scale := { x := 2, y := 2, z := 0 } }) =
      some Collision.Bottom := by
    norm_num [aabb_of, Vec3.truncate, is_collision, Aabb2d.intersects,
      Aabb2d.new, Vec2.add, Vec2.sub, Vec2.divScalar, Aabb2d.center,
      Aabb2d.closest_point, Vec2.clamp, clampQ]
  rw [rocket_collision_pair_some false hcol]
  simp

/-- C1, amended: in the collision pass, for every rocket-collider pair the
no-payload collision event is broadcast iff the two AABBs overlap — whether
or not the collider is a plane — and the rocket and the collider are
despawned iff the AABBs overlap and the collider is specifically a plane;
with no overlap, no event is emitted for the pair. -/
theorem collision_event_on_any_overlap (rocketT colliderT : Transform')
    (isPl : Bool) :
    ((rocket_collision_pair rocketT colliderT isPl).eventSent = true ↔
        Aabb2d.intersects (aabb_of rocketT) (aabb_of colliderT) = true) ∧
    ((rocket_collision_pair rocketT colliderT isPl).rocketDespawned = true ↔
        (Aabb2d.intersects (aabb_of rocketT) (aabb_of colliderT) = true ∧
          isPl = true)) ∧
    ((rocket_collision_pair rocketT colliderT isPl).colliderDespawned = true ↔
        (Aabb2d.intersects (aabb_of rocketT) (aabb_of colliderT) = true ∧
          isPl = true)) := by
  cases hc : is_collision (aabb_of rocketT) (aabb_of colliderT) with
  | none =>
    have hint : Aabb2d.intersects (aabb_of rocketT) (aabb_of colliderT) = false := by
      have h2 := is_collision_isSome_iff (aabb_of rocketT) (aabb_of colliderT)
      rw [hc] at h2
      simpa using h2
    rw [rocket_collision_pair_none isPl hc, hint]
    simp
  | some s =>
    have hint : Aabb2d.intersects (aabb_of rocketT) (aabb_of colliderT) = true := by
      have h2 := is_collision_isSome_iff (aabb_of rocketT) (aabb_of colliderT)
      rw [hc] at h2
      simpa using h2
    rw [rocket_collision_pair_some isPl hc, hint]
    simp

/-- C2, code bug: a plane that has exited the left screen bound (x < 0, here
x = -10 with screen height 600 and the spawn altitude y = 500) is NOT
despawned by `plane_update`; it stays alive and keeps moving left, because
the despawn branch tests the vertical coordinate (`y < height`) instead of
the horizontal exit — the copy-paste artifact the spec itself flags in §9. -/
theorem plane_exited_left_not_despawned :
    plane_update_step 1 600
        { x := -10, y := 500, movement_speed := 100,
          bomb_spawn_timer := { duration := 2, elapsed := 0, finished := false },
          number_of_bombs := 1 } =
      some { x := -110, y := 500, movement_speed := 100,
             bomb_spawn_timer := { duration := 2, elapsed := 0, finished := false },
             number_of_bombs := 1 } ∧
    (-10 : ℚ) < 0 := by
  norm_num [plane_update_step]

/-- C3, code bug: over one frame with delta 1/2 and one live plane, the
global plane-spawn timer accumulates exactly 1/2, but the plane's bomb-spawn
timer accumulates 1 = 2 * (1/2), because `bomb_spawn_timer_update` is
registered twice in the `Update` schedule of `main` (once unconditionally
and once under `run_if(run_if_planes)`). -/
theorem bomb_timer_ticked_twice_per_frame :
    (frame_timer_updates (1 / 2) { duration := 2, elapsed := 0, finished := false }
        [{ x := 600, y := 500, movement_speed := 100,
           bomb_spawn_timer := { duration := 2, elapsed := 0, finished := false },
           number_of_bombs := 1 }]).1.elapsed = 1 / 2 ∧
    ((frame_timer_updates (1 / 2) { duration := 2, elapsed := 0, finished := false }
        [{ x := 600, y := 500, movement_speed := 100,
           bomb_spawn_timer := { duration := 2, elapsed := 0, finished := false },
           number_of_bombs := 1 }]).2.map fun p => p.bomb_spawn_timer.elapsed) =
      [1] := by
  norm_num [frame_timer_updates, plane_spawn_timer_update,
    bomb_spawn_timer_update, Timer.tick]

/-- C4, counterexample: on the second test vector (centers (0,0) and (1,0),
half-extents (1,1)) the classification is neither Right nor Left: the
rocket's center lies inside the collider's box, so the offset is (0,0) and
the vertical fall-through branch yields Bottom. -/
theorem aabb_second_vector_not_horizontal :
    ¬ (is_collision (Aabb2d.new { x := 0, y := 0 } { x := 1, y := 1 })
          (Aabb2d.new { x := 1, y := 0 } { x := 1, y := 1 }) =
        some Collision.Right ∨
      is_collision (Aabb2d.new { x := 0, y := 0 } { x := 1, y := 1 })
          (Aabb2d.new { x := 1, y := 0 } { x := 1, y := 1 }) =
        some Collision.Left) := by
  norm_num [is_collision, Aabb2d.intersects, Aabb2d.new, Vec2.add, Vec2.sub,
    Vec2.divScalar, Aabb2d.center, Aabb2d.closest_point, Vec2.clamp, clampQ]
  decide

/-- C4, amended: the first test vector (centers (0,0) and (3,0), half-extents
(1,1)) reports no hit; the second (centers (0,0) and (1,0)) reports an
overlap, but its side classification is Bottom — the rocket center lies
inside the collider's box so the offset is zero — not a horizontal side. -/
theorem aabb_test_vectors_eval :
    is_collision (Aabb2d.new { x := 0, y := 0 } { x := 1, y := 1 })
        (Aabb2d.new { x := 3, y := 0 } { x := 1, y := 1 }) = none ∧
    is_collision (Aabb2d.new { x := 0, y := 0 } { x := 1, y := 1 })
        (Aabb2d.new { x := 1, y := 0 } { x := 1, y := 1 }) =
      some Collision.Bottom := by
  norm_num [is_collision, Aabb2d.intersects, Aabb2d.new, Vec2.add, Vec2.sub,
    Vec2.divScalar, Aabb2d.center, Aabb2d.closest_point, Vec2.clamp, clampQ]

/-- C5: a rocket fired on a space edge spawns exactly at the player's
position (with speed 600); each frame a live rocket climbs by
`movement_speed * delta` while `y < height`, and on the first frame with
`y ≥ height` (boundary exclusive) it is despawned with no movement applied. -/
theorem rocket_spawn_position_and_bound (loc : Vec3) (delta height : ℚ)
    (r : RocketEnt) :
    fire_rocket (some loc) true =
      Except.ok [{ x := loc.x, y := loc.y, movement_speed := 600 }] ∧
    (r.y < height →
      rocket_update_step delta height r =
        some { r with y := r.y + r.movement_speed * delta }) ∧
    (height ≤ r.y → rocket_update_step delta height r = none) := by
  refine ⟨rfl, fun h => ?_, fun h => ?_⟩
  · simp [rocket_update_step, h]
  · unfold rocket_update_step
    rw [if_neg (not_lt.mpr h)]

/-- C5, witness: a rocket at the screen-height boundary (y = 600 = height)
is despawned. -/
theorem rocket_spawn_position_and_bound_w :
    rocket_update_step 1 600 { x := 0, y := 600, movement_speed := 600 } = none :=
  (rocket_spawn_position_and_bound { x := 0, y := 0, z := 0 } 1 600
      { x := 0, y := 600, movement_speed := 600 }).2.2 (by norm_num)

/-- C6: for every delta ≥ 0 and every left/right input pair, one
`move_player` update adds exactly `movement_speed * direction * delta` to the
player's x, where direction is -1 for left only, +1 for right only, 0 when
neither or both are pressed; the rest of the player record is unchanged and
no clamping is applied. -/
theorem move_player_direction_contract (p : PlayerEnt)
    (leftPressed rightPressed : Bool) (delta : ℚ) (h : 0 ≤ delta) :
    move_player (some p) leftPressed rightPressed delta =
      Except.ok { p with
        x := p.x + p.movement_speed * spec_direction leftPressed rightPressed * delta } := by
  cases leftPressed <;> cases rightPressed <;>
    simp [move_player, spec_direction]

/-- C6, witness: left-only input at delta 1 moves the player by
`-movement_speed`. -/
theorem move_player_direction_contract_w :
    move_player (some { x := 0, y := 32, movement_speed := 500 }) true false 1 =
      Except.ok { x := 0 + 500 * spec_direction true false * 1, y := 32,
                  movement_speed := 500 } :=
  move_player_direction_contract { x := 0, y := 32, movement_speed := 500 }
    true false 1 (by norm_num)

/-- C7: a bomb spawns at its owning plane's position when the plane's timer
has finished; for delta ≥ 0 and nonnegative fall speed a live bomb
(y > -16) falls by `falling_speed * delta` (so y never increases and never
undershoots -16 by more than one frame's movement), and a bomb with
y ≤ -16 is despawned that frame. -/
theorem bomb_spawn_fall_despawn (delta : ℚ) (b : BombEnt) (p : PlaneEnt)
    (hd : 0 ≤ delta) (hs : 0 ≤ b.falling_speed)
    (hfin : p.bomb_spawn_timer.finished = true) :
    spawn_bombs [p] = [{ x := p.x, y := p.y, falling_speed := 100 }] ∧
    (-16 < b.y →
      update_bombs_step delta b =
          some { b with y := b.y - b.falling_speed * delta } ∧
        b.y - b.falling_speed * delta ≤ b.y ∧
        -16 - b.falling_speed * delta < b.y - b.falling_speed * delta) ∧
    (b.y ≤ -16 → update_bombs_step delta b = none) := by
  refine ⟨?_, fun h => ⟨?_, ?_, ?_⟩, fun h => ?_⟩
  · simp [spawn_bombs, hfin]
  · simp [update_bombs_step, h]
  · exact sub_le_self _ (mul_nonneg hs hd)
  · linarith
  · unfold update_bombs_step
    rw [if_neg (not_lt.mpr h)]

/-- C7, witness: a plane with a finished bomb timer spawns a bomb at the
plane's own position. -/
theorem bomb_spawn_fall_despawn_w :
    spawn_bombs [{ x := 300, y := 500, movement_speed := 100,
                   bomb_spawn_timer := { duration := 2, elapsed := 0, finished := true },
                   number_of_bombs := 1 }] =
      [{ x := 300, y := 500, falling_speed := 100 }] :=
  (bomb_spawn_fall_despawn 1 { x := 0, y := 10, falling_speed := 100 }
      { x := 300, y := 500, movement_speed := 100,
        bomb_spawn_timer := { duration := 2, elapsed := 0, finished := true },
        number_of_bombs := 1 } (by norm_num) (by norm_num) rfl).1

/-- C8: for every pair of intersecting AABBs, `is_collision` returns exactly
the side computed by the spec's rule: offset = rocket center minus the
nearest point of the collider's box; |offset.x| > |offset.y| gives Left or
Right by the sign of offset.x, otherwise Top when offset.y > 0 and Bottom
otherwise. -/
theorem impact_side_matches_spec (colliding collider : Aabb2d)
    (h : Aabb2d.intersects colliding collider = true) :
    is_collision colliding collider =
      some (specImpactSide colliding collider) := by
  unfold is_collision specImpactSide
  simp [h]

/-- C8, witness: the overlapping test boxes from §8 of the spec. -/
theorem impact_side_matches_spec_w :
    Aabb2d.intersects (Aabb2d.new { x := 0, y := 0 } { x := 1, y := 1 })
        (Aabb2d.new { x := 1, y := 0 } { x := 1, y := 1 }) = true ∧
    is_collision (Aabb2d.new { x := 0, y := 0 } { x := 1, y := 1 })
        (Aabb2d.new { x := 1, y := 0 } { x := 1, y := 1 }) =
      some (specImpactSide (Aabb2d.new { x := 0, y := 0 } { x := 1, y := 1 })
        (Aabb2d.new { x := 1, y := 0 } { x := 1, y := 1 })) :=
  ⟨by norm_num [Aabb2d.intersects, Aabb2d.new, Vec2.add, Vec2.sub],
    impact_side_matches_spec _ _
      (by norm_num [Aabb2d.intersects, Aabb2d.new, Vec2.add, Vec2.sub])⟩

/-- C9: with no player (for `move_player` and `fire_rocket`) or no primary
window (for `setup_camera`) the system hard-stops (`Except.error`, the
modelled `get_single().unwrap()` panic) rather than silently doing nothing,
and with the entity present each of the three succeeds. -/
theorem missing_player_or_window_hard_stop
    (leftPressed rightPressed spacePressed : Bool) (delta : ℚ)
    (p : PlayerEnt) (loc : Vec3) (w : WindowEnt) :
    move_player none leftPressed rightPressed delta = Except.error () ∧
    fire_rocket none spacePressed = Except.error () ∧
    setup_camera none = Except.error () ∧
    (∃ q, move_player (some p) leftPressed rightPressed delta = Except.ok q) ∧
    (∃ rs, fire_rocket (some loc) spacePressed = Except.ok rs) ∧
    (∃ c, setup_camera (some w) = Except.ok c) :=
  ⟨rfl, rfl, rfl, ⟨_, rfl⟩, ⟨_, rfl⟩, ⟨_, rfl⟩⟩

/-- Helper: `plane_update` never despawns a plane whose y stays below the
screen height, and it never changes the plane's y. -/
theorem plane_update_run_preserves_y (height : ℚ) (deltas : List ℚ) :
    ∀ p : PlaneEnt, p.y < height →
      ∃ p', plane_update_run height deltas p = some p' ∧ p'.y = p.y := by
  induction deltas with
  | nil => exact fun p _ => ⟨p, rfl, rfl⟩
  | cons d ds ih =>
    intro p hp
    have hstep : plane_update_step d height p =
        some { p with x := p.x - p.movement_speed * d } := by
      simp [plane_update_step, hp]
    obtain ⟨p', hrun, hy⟩ := ih { p with x := p.x - p.movement_speed * d } hp
    refine ⟨p', ?_, hy⟩
    simp only [plane_update_run, hstep]
    exact hrun

/-- C10: every spawned plane's y is `height - 100`; across any sequence of
`plane_update` frames the plane stays alive with y still `height - 100`
(the y ≥ height despawn branch is unreachable), and the bomb-timer tick
leaves every plane's y unchanged — so only the rocket-collision pass can
remove a plane. -/
theorem plane_y_fixed_no_bound_despawn (width height delta : ℚ)
    (deltas : List ℚ) (planes : List PlaneEnt) :
    (spawn_planes_plane width height).y = height - 100 ∧
    (∃ p', plane_update_run height deltas (spawn_planes_plane width height) =
        some p' ∧ p'.y = height - 100) ∧
    (bomb_spawn_timer_update delta planes).map (fun p => p.y) =
      planes.map fun p => p.y := by
  refine ⟨rfl, ?_, ?_⟩
  · have h : (spawn_planes_plane width height).y < height := by
      show height - 100 < height
      linarith
    obtain ⟨p', h1, h2⟩ := plane_update_run_preserves_y height deltas _ h
    exact ⟨p', h1, h2⟩
  · simp [bomb_spawn_timer_update]
